import Mathlib

/-!
Shallow embedding of the coingeckomcp2 MCP servers
(`src/coingecko_server.py` and `src/multimcps/combined_server.py`).

The two files are near-duplicates: `CoinGeckoServer` exposes one tool
(`get_coin_price`), `MultiMCPServer` exposes two (`get_coin_price` and
`search_twitter_mentions`).  The `get_coin_price` method and the
`get_coin_price` tool descriptor are line-identical in the two files, so
they are defined once here and shared by both embedded servers.

Upstream HTTP behaviour is modelled by an `HttpOutcome` parameter: either
a response (status code plus parsed JSON body, standing for
`response.status` / `await response.json()`) or a raised exception
(standing for any transport fault thrown inside the `try` block).  Each
fetcher performs exactly one upstream call in the source, so dispatch is
modelled as a function of the single outcome that call produces, and the
dispatcher records how many upstream calls were made (`upstreamCalls`).
-/

/-- Parsed JSON values as produced by `response.json()`, which double as
the Python runtime values the servers manipulate (dicts, lists, strings,
numbers, booleans, `None`).  Objects keep field order, as Python dicts
do; numbers are modelled as integers (no claim depends on float
behaviour). -/
inductive Json where
  | null : Json
  | bool (b : Bool) : Json
  | num (n : Int) : Json
  | str (s : String) : Json
  | arr (items : List Json) : Json
  | obj (fields : List (String × Json)) : Json
deriving Repr

/-- Dict lookup (`d[k]` / `k in d`): first match wins; JSON objects
decoded from upstream bodies have no duplicate keys. -/
def lookupField (fields : List (String × Json)) (key : String) : Option Json :=
  match fields with
  | [] => none
  | (k, v) :: rest => if k = key then some v else lookupField rest key

/-- Python truthiness (`if not x:`): `None`, `False`, `0`, `""`, `[]`
and the empty dict are falsy, everything else is truthy. -/
def truthy : Json → Bool
  | Json.null => false
  | Json.bool b => b
  | Json.num n => n != 0
  | Json.str s => s != ""
  | Json.arr [] => false
  | Json.arr (_ :: _) => true
  | Json.obj [] => false
  | Json.obj (_ :: _) => true

mutual
/-- Python `str()` of a decoded-JSON value, as used in
`str(price_data)` / `str(twitter_data)`: `None`/`True`/`False`,
decimal integers, `repr`-quoted strings, `[..]` lists and
`\x7b'k': v\x7d` dicts. -/
def pyStr : Json → String
  | Json.null => "None"
  | Json.bool b => if b then "True" else "False"
  | Json.num n => toString n
  | Json.str s => "\x27" ++ s ++ "\x27"
  | Json.arr items => "[" ++ pyStrItems items ++ "]"
  | Json.obj fields => "\x7b" ++ pyStrFields fields ++ "\x7d"

/-- Comma-separated rendering of list elements. -/
def pyStrItems : List Json → String
  | [] => ""
  | [x] => pyStr x
  | x :: y :: rest => pyStr x ++ ", " ++ pyStrItems (y :: rest)

/-- Comma-separated rendering of dict entries. -/
def pyStrFields : List (String × Json) → String
  | [] => ""
  | [(k, v)] => "\x27" ++ k ++ "\x27: " ++ pyStr v
  | (k, v) :: f :: rest => "\x27" ++ k ++ "\x27: " ++ pyStr v ++ ", " ++ pyStrFields (f :: rest)
end

/-- Outcome of the single `session.get` an invoked fetcher performs:
either an HTTP response with a status code and parsed body, or an
exception raised on the request path (transport fault). -/
inductive HttpOutcome where
  | response (status : Nat) (body : Json) : HttpOutcome
  | raise (msg : String) : HttpOutcome
deriving Repr

/-- `CoinGeckoServer.get_coin_price` / `MultiMCPServer.get_coin_price`
(line-identical in the two files).  On HTTP 200 with
`coin_id in data and "usd" in data[coin_id]` it returns
`\x7b"price": data[coin_id]["usd"]\x7d`; on 200 without that field, on any
non-200 status, and on any exception it returns `\x7b"price": None\x7d`.
The catch-all row also covers a non-`str` `coin_id` or a non-dict body,
where the Python membership test either fails or the indexing raises a
`TypeError` swallowed by the same broad `except`, with the identical
`\x7b"price": None\x7d` value on every such path. -/
def get_coin_price (coin_id : Json) (upstream : HttpOutcome) : Json :=
  match upstream with
  | HttpOutcome.raise _ => Json.obj [("price", Json.null)]
  | HttpOutcome.response status body =>
      if status = 200 then
        match coin_id, body with
        | Json.str cid, Json.obj fields =>
            match lookupField fields cid with
            | some (Json.obj inner) =>
                match lookupField inner "usd" with
                | some v => Json.obj [("price", v)]
                | none => Json.obj [("price", Json.null)]
            | _ => Json.obj [("price", Json.null)]
        | _, _ => Json.obj [("price", Json.null)]
      else Json.obj [("price", Json.null)]

/-- `MultiMCPServer.search_twitter_mentions`: on HTTP 200 it returns the
parsed body verbatim; on any other status and on any exception it
returns the empty list.  The `keywords` input only feeds the request's
query parameters and never shapes the returned value. -/
def search_twitter_mentions (keywords : Json) (upstream : HttpOutcome) : Json :=
  match keywords, upstream with
  | _, HttpOutcome.raise _ => Json.arr []
  | _, HttpOutcome.response status body =>
      if status = 200 then body else Json.arr []

/-- One element of the content list a tool call returns:
`\x7b"type": "text", "text": str(data)\x7d`. -/
structure ContentItem where
  type : String
  text : String
deriving Repr

/-- Result of one `call_tool` invocation: the returned content list or
the raised `ValueError` message, together with the number of upstream
HTTP calls performed while handling it. -/
structure CallResult where
  result : Except String (List ContentItem)
  upstreamCalls : Nat
deriving Repr

/-- `arguments.get(key)`: `None` when the key is absent. -/
def argGet (arguments : List (String × Json)) (key : String) : Json :=
  (lookupField arguments key).getD Json.null

/-- The `get_coin_price` tool descriptor, line-identical in the two
servers' `list_tools` handlers. -/
def coinPriceTool : Json :=
  Json.obj [
    ("name", Json.str "get_coin_price"),
    ("description", Json.str "Gets the current price of a coin from CoinGecko."),
    ("inputSchema", Json.obj [
      ("type", Json.str "object"),
      ("properties", Json.obj [
        ("coin_id", Json.obj [
          ("type", Json.str "string"),
          ("description", Json.str "The CoinGecko ID of the coin (e.g., bitcoin, ethereum).")])]),
      ("required", Json.arr [Json.str "coin_id"])])]

/-- The `search_twitter_mentions` tool descriptor from
`MultiMCPServer`'s `list_tools` handler. -/
def twitterTool : Json :=
  Json.obj [
    ("name", Json.str "search_twitter_mentions"),
    ("description", Json.str "Searches for mentions of specific keywords on Twitter using ELFA AI API."),
    ("inputSchema", Json.obj [
      ("type", Json.str "object"),
      ("properties", Json.obj [
        ("keywords", Json.obj [
          ("type", Json.str "array"),
          ("items", Json.obj [
            ("type", Json.str "string")]),
          ("description", Json.str "List of keywords to search for.")])]),
      ("required", Json.arr [Json.str "keywords"])])]

/-- `CoinGeckoServer`'s `list_tools` handler: the one-descriptor
catalog, rebuilt from the same literal on every call. -/
def CoinGecko.list_tools : List Json := [coinPriceTool]

/-- `MultiMCPServer`'s `list_tools` handler: the two-descriptor catalog
in source order. -/
def MultiMCP.list_tools : List Json := [coinPriceTool, twitterTool]

/-- The `i`-th call to `CoinGeckoServer`'s `list_tools` within one
process lifetime: the handler closes over no mutable state, so every
call re-evaluates the same literal. -/
def CoinGecko.list_tools_call (_i : Nat) : List Json := CoinGecko.list_tools

/-- The `i`-th call to `MultiMCPServer`'s `list_tools` within one
process lifetime: likewise stateless. -/
def MultiMCP.list_tools_call (_i : Nat) : List Json := MultiMCP.list_tools

/-- `CoinGeckoServer`'s `call_tool` handler.  `get_coin_price`: reads
`arguments.get("coin_id")`, raises `ValueError("coin_id is required")`
when it is missing or falsy (before any upstream call), otherwise runs
the fetcher (one upstream call) and wraps `str(price_data)` in a text
content item.  Any other name raises `ValueError("Unknown tool: ...")`. -/
def CoinGecko.call_tool (name : String) (arguments : List (String × Json))
    (upstream : HttpOutcome) : CallResult :=
  if name = "get_coin_price" then
    let coin_id := argGet arguments "coin_id"
    if !truthy coin_id then
      { result := Except.error "coin_id is required", upstreamCalls := 0 }
    else
      { result := Except.ok [{ type := "text", text := pyStr (get_coin_price coin_id upstream) }],
        upstreamCalls := 1 }
  else
    { result := Except.error ("Unknown tool: " ++ name), upstreamCalls := 0 }

/-- `MultiMCPServer`'s `call_tool` handler: the `get_coin_price` branch
as in `CoinGecko.call_tool`, plus a `search_twitter_mentions` branch
reading `arguments.get("keywords")`, raising
`ValueError("keywords is required")` when missing or falsy, and
otherwise wrapping `str(twitter_data)`; unknown names raise. -/
def MultiMCP.call_tool (name : String) (arguments : List (String × Json))
    (upstream : HttpOutcome) : CallResult :=
  if name = "get_coin_price" then
    let coin_id := argGet arguments "coin_id"
    if !truthy coin_id then
      { result := Except.error "coin_id is required", upstreamCalls := 0 }
    else
      { result := Except.ok [{ type := "text", text := pyStr (get_coin_price coin_id upstream) }],
        upstreamCalls := 1 }
  else if name = "search_twitter_mentions" then
    let keywords := argGet arguments "keywords"
    if !truthy keywords then
      { result := Except.error "keywords is required", upstreamCalls := 0 }
    else
      { result := Except.ok [{ type := "text", text := pyStr (search_twitter_mentions keywords upstream) }],
        upstreamCalls := 1 }
  else
    { result := Except.error ("Unknown tool: " ++ name), upstreamCalls := 0 }

/-- The nested lookup `data[coin_id]["usd"]` guarded by
`coin_id in data and "usd" in data[coin_id]`, as one partial function on
the parsed 200 body. -/
def priceLookup (cid : String) (body : Json) : Option Json :=
  match body with
  | Json.obj fields =>
      match lookupField fields cid with
      | some (Json.obj inner) => lookupField inner "usd"
      | _ => none
  | _ => none

/-- The name field of a tool descriptor. -/
def toolName (tool : Json) : Option Json :=
  match tool with
  | Json.obj fields => lookupField fields "name"
  | _ => none

/-- The `required` list of a tool descriptor's input schema. -/
def toolRequired (tool : Json) : Option Json :=
  match tool with
  | Json.obj fields =>
      match lookupField fields "inputSchema" with
      | some (Json.obj schema) => lookupField schema "required"
      | _ => none
  | _ => none

/-- A non-empty string argument is truthy. -/
theorem truthy_str (s : String) (h : s ≠ "") : truthy (Json.str s) = true := by
  simp [truthy, h]

/-- On an HTTP 200 response the price fetcher returns the looked-up USD
value, defaulting to `None`, under the `"price"` key. -/
theorem get_coin_price_200 (cid : String) (body : Json) :
    get_coin_price (Json.str cid) (HttpOutcome.response 200 body)
      = Json.obj [("price", (priceLookup cid body).getD Json.null)] := by
  cases body with
  | obj fields =>
      unfold get_coin_price priceLookup
      cases hf : lookupField fields cid with
      | none => simp [hf]
      | some v =>
          cases v with
          | obj inner =>
              cases hu : lookupField inner "usd" with
              | none => simp [hf, hu]
              | some u => simp [hf, hu]
          | null => simp [hf]
          | bool b => simp [hf]
          | num n => simp [hf]
          | str s => simp [hf]
          | arr xs => simp [hf]
  | null => rfl
  | bool b => rfl
  | num n => rfl
  | str s => rfl
  | arr xs => rfl

/-- C4: for every tool name outside the advertised catalog, `call_tool`
raises `ValueError("Unknown tool: <name>")` — a protocol-level failure,
not a `ToolResult` — and performs no upstream call.  The single-tool
server's catalog holds only `get_coin_price`, so it rejects every other
name — including `search_twitter_mentions`, absent from its catalog —
while the multi-tool server rejects every name outside its two. -/
theorem C4_unknown_tool_rejected (name : String) (h1 : name ≠ "get_coin_price")
    (arguments : List (String × Json)) (upstream : HttpOutcome) :
    CoinGecko.call_tool name arguments upstream
      = { result := Except.error ("Unknown tool: " ++ name), upstreamCalls := 0 }
    ∧ (name ≠ "search_twitter_mentions" →
        MultiMCP.call_tool name arguments upstream
          = { result := Except.error ("Unknown tool: " ++ name), upstreamCalls := 0 }) := by
  constructor
  · simp [CoinGecko.call_tool, h1]
  · intro h2
    simp [MultiMCP.call_tool, h1, h2]

/-- Witness for C4 at the unregistered name "get_weather" (both
servers) and at "search_twitter_mentions", which the single-tool
server's catalog lacks and its dispatcher therefore rejects. -/
theorem C4_unknown_tool_rejected_witness :
    (CoinGecko.call_tool "get_weather" [] (HttpOutcome.response 200 (Json.obj []))
        = { result := Except.error ("Unknown tool: " ++ "get_weather"), upstreamCalls := 0 }
      ∧ (("get_weather" : String) ≠ "search_twitter_mentions" →
          MultiMCP.call_tool "get_weather" [] (HttpOutcome.response 200 (Json.obj []))
            = { result := Except.error ("Unknown tool: " ++ "get_weather"), upstreamCalls := 0 }))
    ∧ CoinGecko.call_tool "search_twitter_mentions" [] (HttpOutcome.response 200 (Json.obj []))
      = { result := Except.error ("Unknown tool: " ++ "search_twitter_mentions"),
          upstreamCalls := 0 } :=
  ⟨C4_unknown_tool_rejected "get_weather" (by decide) [] (HttpOutcome.response 200 (Json.obj [])),
    (C4_unknown_tool_rejected "search_twitter_mentions" (by decide) []
        (HttpOutcome.response 200 (Json.obj []))).1⟩

/-- C5: an argument map omitting the required field makes `call_tool`
raise the missing-argument `ValueError` with zero upstream calls, for
every tool of both servers and whatever the upstream would have
answered. -/
theorem C5_missing_argument_before_network (upstream : HttpOutcome) :
    MultiMCP.call_tool "get_coin_price" [] upstream
      = { result := Except.error "coin_id is required", upstreamCalls := 0 }
    ∧ MultiMCP.call_tool "search_twitter_mentions" [] upstream
      = { result := Except.error "keywords is required", upstreamCalls := 0 }
    ∧ CoinGecko.call_tool "get_coin_price" [] upstream
      = { result := Except.error "coin_id is required", upstreamCalls := 0 } :=
  ⟨rfl, rfl, rfl⟩

/-- C6: `list_tools` returns the same order-preserving catalog on every
call within one process lifetime (the handler reads no state), and each
entry's schema's required-field list is exactly the corresponding
fetcher's mandatory input: `["coin_id"]` for `get_coin_price` and
`["keywords"]` for `search_twitter_mentions`. -/
theorem C6_list_tools_stable_catalog :
    (∀ i j : Nat, MultiMCP.list_tools_call i = MultiMCP.list_tools_call j)
    ∧ (∀ i j : Nat, CoinGecko.list_tools_call i = CoinGecko.list_tools_call j)
    ∧ MultiMCP.list_tools.map toolName
        = [some (Json.str "get_coin_price"), some (Json.str "search_twitter_mentions")]
    ∧ MultiMCP.list_tools.map toolRequired
        = [some (Json.arr [Json.str "coin_id"]), some (Json.arr [Json.str "keywords"])]
    ∧ CoinGecko.list_tools.map toolName = [some (Json.str "get_coin_price")]
    ∧ CoinGecko.list_tools.map toolRequired = [some (Json.arr [Json.str "coin_id"])] :=
  ⟨fun _ _ => rfl, fun _ _ => rfl, rfl, rfl, rfl, rfl⟩

/-- C8: every handled invocation resolves to exactly one outcome — one
returned content list or one raised error, never both and never
neither — for any tool name, argument map and upstream behaviour, on
both servers. -/
theorem C8_exactly_one_outcome (name : String) (arguments : List (String × Json))
    (upstream : HttpOutcome) :
    (((∃ r, (MultiMCP.call_tool name arguments upstream).result = Except.ok r)
        ∧ ¬ ∃ e, (MultiMCP.call_tool name arguments upstream).result = Except.error e)
      ∨ ((∃ e, (MultiMCP.call_tool name arguments upstream).result = Except.error e)
        ∧ ¬ ∃ r, (MultiMCP.call_tool name arguments upstream).result = Except.ok r))
    ∧ (((∃ r, (CoinGecko.call_tool name arguments upstream).result = Except.ok r)
        ∧ ¬ ∃ e, (CoinGecko.call_tool name arguments upstream).result = Except.error e)
      ∨ ((∃ e, (CoinGecko.call_tool name arguments upstream).result = Except.error e)
        ∧ ¬ ∃ r, (CoinGecko.call_tool name arguments upstream).result = Except.ok r)) := by
  constructor
  · cases h : (MultiMCP.call_tool name arguments upstream).result with
    | ok r =>
        refine Or.inl ⟨⟨r, rfl⟩, ?_⟩
        rintro ⟨e, he⟩
        cases he
    | error e =>
        refine Or.inr ⟨⟨e, rfl⟩, ?_⟩
        rintro ⟨r, hr⟩
        cases hr
  · cases h : (CoinGecko.call_tool name arguments upstream).result with
    | ok r =>
        refine Or.inl ⟨⟨r, rfl⟩, ?_⟩
        rintro ⟨e, he⟩
        cases he
    | error e =>
        refine Or.inr ⟨⟨e, rfl⟩, ?_⟩
        rintro ⟨r, hr⟩
        cases hr

/-- C3: when the 200 body lacks the coin id (or its `usd` field), the
fetcher returns the `\x7b"price": None\x7d` payload, and a dispatched call
(with a non-empty coin id reaching the fetcher) surfaces it as the
ordinary text result `"\x7b'price': None\x7d"` — an `Except.ok`, not an
error. -/
theorem C3_absent_coin_is_empty_not_error (cid : String) (body : Json)
    (h : priceLookup cid body = none) :
    get_coin_price (Json.str cid) (HttpOutcome.response 200 body)
      = Json.obj [("price", Json.null)]
    ∧ (cid ≠ "" →
        MultiMCP.call_tool "get_coin_price" [("coin_id", Json.str cid)]
            (HttpOutcome.response 200 body)
          = { result := Except.ok [{ type := "text", text := "\x7b\x27price\x27: None\x7d" }],
              upstreamCalls := 1 }
        ∧ CoinGecko.call_tool "get_coin_price" [("coin_id", Json.str cid)]
            (HttpOutcome.response 200 body)
          = { result := Except.ok [{ type := "text", text := "\x7b\x27price\x27: None\x7d" }],
              upstreamCalls := 1 }) := by
  have hfetch : get_coin_price (Json.str cid) (HttpOutcome.response 200 body)
      = Json.obj [("price", Json.null)] := by
    rw [get_coin_price_200, h]
    rfl
  refine ⟨hfetch, fun hc => ?_⟩
  have ht := truthy_str cid hc
  constructor
  · simp [MultiMCP.call_tool, argGet, lookupField, ht, hfetch]
    rfl
  · simp [CoinGecko.call_tool, argGet, lookupField, ht, hfetch]
    rfl

/-- Witness for C3: coin id "dogecoin" against a 200 body mentioning
only "bitcoin". -/
theorem C3_absent_coin_is_empty_not_error_witness :
    priceLookup "dogecoin" (Json.obj [("bitcoin", Json.obj [("usd", Json.num 97000)])]) = none
    ∧ ("dogecoin" : String) ≠ ""
    ∧ (get_coin_price (Json.str "dogecoin")
          (HttpOutcome.response 200 (Json.obj [("bitcoin", Json.obj [("usd", Json.num 97000)])]))
        = Json.obj [("price", Json.null)]
      ∧ (("dogecoin" : String) ≠ "" →
          MultiMCP.call_tool "get_coin_price" [("coin_id", Json.str "dogecoin")]
              (HttpOutcome.response 200 (Json.obj [("bitcoin", Json.obj [("usd", Json.num 97000)])]))
            = { result := Except.ok [{ type := "text", text := "\x7b\x27price\x27: None\x7d" }],
                upstreamCalls := 1 }
          ∧ CoinGecko.call_tool "get_coin_price" [("coin_id", Json.str "dogecoin")]
              (HttpOutcome.response 200 (Json.obj [("bitcoin", Json.obj [("usd", Json.num 97000)])]))
            = { result := Except.ok [{ type := "text", text := "\x7b\x27price\x27: None\x7d" }],
                upstreamCalls := 1 })) :=
  ⟨rfl, by decide,
    C3_absent_coin_is_empty_not_error "dogecoin"
      (Json.obj [("bitcoin", Json.obj [("usd", Json.num 97000)])]) rfl⟩

/-- C9: a required field that is present but falsy — `coin_id` bound to
`""`, or `keywords` bound to `[]` — triggers exactly the same
missing-argument `ValueError` as an absent field, with zero upstream
calls, so a present-but-empty required argument never reaches a
fetcher. -/
theorem C9_falsy_required_field_rejected (upstream : HttpOutcome) :
    MultiMCP.call_tool "get_coin_price" [("coin_id", Json.str "")] upstream
      = MultiMCP.call_tool "get_coin_price" [] upstream
    ∧ MultiMCP.call_tool "get_coin_price" [("coin_id", Json.str "")] upstream
      = { result := Except.error "coin_id is required", upstreamCalls := 0 }
    ∧ MultiMCP.call_tool "search_twitter_mentions" [("keywords", Json.arr [])] upstream
      = MultiMCP.call_tool "search_twitter_mentions" [] upstream
    ∧ MultiMCP.call_tool "search_twitter_mentions" [("keywords", Json.arr [])] upstream
      = { result := Except.error "keywords is required", upstreamCalls := 0 }
    ∧ CoinGecko.call_tool "get_coin_price" [("coin_id", Json.str "")] upstream
      = CoinGecko.call_tool "get_coin_price" [] upstream
    ∧ CoinGecko.call_tool "get_coin_price" [("coin_id", Json.str "")] upstream
      = { result := Except.error "coin_id is required", upstreamCalls := 0 } :=
  ⟨rfl, rfl, rfl, rfl, rfl, rfl⟩

/-- C10: for any keywords and any upstream failure — non-200 status or a
raised transport fault — `search_twitter_mentions` returns `[]`, the
very value a successful 200 response with an empty-array body produces,
so errors are indistinguishable from an empty success at the fetcher's
return type. -/
theorem C10_mention_errors_collapse_to_empty (keywords : Json) (status : Nat)
    (h : status ≠ 200) (body : Json) (msg : String) :
    search_twitter_mentions keywords (HttpOutcome.response status body) = Json.arr []
    ∧ search_twitter_mentions keywords (HttpOutcome.raise msg) = Json.arr []
    ∧ search_twitter_mentions keywords (HttpOutcome.response status body)
      = search_twitter_mentions keywords (HttpOutcome.response 200 (Json.arr [])) := by
  have h1 : search_twitter_mentions keywords (HttpOutcome.response status body)
      = Json.arr [] := by
    cases keywords <;> simp [search_twitter_mentions, h]
  have h2 : search_twitter_mentions keywords (HttpOutcome.raise msg) = Json.arr [] := by
    cases keywords <;> rfl
  have h3 : search_twitter_mentions keywords (HttpOutcome.response 200 (Json.arr []))
      = Json.arr [] := by
    cases keywords <;> rfl
  exact ⟨h1, h2, h1.trans h3.symm⟩

/-- Witness for C10: keywords `["btc"]`, a 500 response and a timeout. -/
theorem C10_mention_errors_collapse_to_empty_witness :
    (500 : Nat) ≠ 200
    ∧ (search_twitter_mentions (Json.arr [Json.str "btc"])
          (HttpOutcome.response 500 (Json.obj [])) = Json.arr []
      ∧ search_twitter_mentions (Json.arr [Json.str "btc"])
          (HttpOutcome.raise "timeout") = Json.arr []
      ∧ search_twitter_mentions (Json.arr [Json.str "btc"])
          (HttpOutcome.response 500 (Json.obj []))
        = search_twitter_mentions (Json.arr [Json.str "btc"])
            (HttpOutcome.response 200 (Json.arr []))) :=
  ⟨by decide,
    C10_mention_errors_collapse_to_empty (Json.arr [Json.str "btc"]) 500 (by decide)
      (Json.obj []) "timeout"⟩

/-- A non-empty list argument is truthy. -/
theorem truthy_arr (xs : List Json) (h : xs ≠ []) : truthy (Json.arr xs) = true := by
  cases xs with
  | nil => exact absurd rfl h
  | cons y ys => rfl

/-- Counterexample to C1: at coin id "bitcoin" with an empty 200 body,
the HTTP-500 outcome and the transport-fault outcome of
`get_coin_price` are the very same `\x7b"price": None\x7d` value as the
Empty (200-without-data) outcome — no variant distinct from Empty is
ever produced. -/
theorem C1_counterexample_no_distinct_error_variant :
    get_coin_price (Json.str "bitcoin") (HttpOutcome.response 500 (Json.obj []))
      = get_coin_price (Json.str "bitcoin") (HttpOutcome.response 200 (Json.obj []))
    ∧ get_coin_price (Json.str "bitcoin") (HttpOutcome.raise "connection reset")
      = get_coin_price (Json.str "bitcoin") (HttpOutcome.response 200 (Json.obj []))
    ∧ get_coin_price (Json.str "bitcoin") (HttpOutcome.response 500 (Json.obj []))
      = Json.obj [("price", Json.null)] :=
  ⟨rfl, rfl, rfl⟩

/-- C1 as amended: on an HTTP-500 response and on a raised transport
fault the price fetcher returns `\x7b"price": None\x7d` — the same value as
the Empty case, not a distinct error variant — and for a non-empty coin
id both dispatchers convert it into the ordinary text result
`"\x7b'price': None\x7d"`, never letting the fault escape the `call_tool`
boundary. -/
theorem C1_upstream_and_transport_faults_yield_null_price (coin_id : Json)
    (cid : String) (h : cid ≠ "") (body : Json) (msg : String) :
    get_coin_price coin_id (HttpOutcome.response 500 body) = Json.obj [("price", Json.null)]
    ∧ get_coin_price coin_id (HttpOutcome.raise msg) = Json.obj [("price", Json.null)]
    ∧ MultiMCP.call_tool "get_coin_price" [("coin_id", Json.str cid)]
        (HttpOutcome.response 500 body)
      = { result := Except.ok [{ type := "text", text := "\x7b\x27price\x27: None\x7d" }],
          upstreamCalls := 1 }
    ∧ MultiMCP.call_tool "get_coin_price" [("coin_id", Json.str cid)] (HttpOutcome.raise msg)
      = { result := Except.ok [{ type := "text", text := "\x7b\x27price\x27: None\x7d" }],
          upstreamCalls := 1 }
    ∧ CoinGecko.call_tool "get_coin_price" [("coin_id", Json.str cid)]
        (HttpOutcome.response 500 body)
      = { result := Except.ok [{ type := "text", text := "\x7b\x27price\x27: None\x7d" }],
          upstreamCalls := 1 }
    ∧ CoinGecko.call_tool "get_coin_price" [("coin_id", Json.str cid)] (HttpOutcome.raise msg)
      = { result := Except.ok [{ type := "text", text := "\x7b\x27price\x27: None\x7d" }],
          upstreamCalls := 1 } := by
  have h500 : ∀ c : Json, get_coin_price c (HttpOutcome.response 500 body)
      = Json.obj [("price", Json.null)] := by
    intro c
    simp [get_coin_price]
  have hraise : ∀ c : Json, get_coin_price c (HttpOutcome.raise msg)
      = Json.obj [("price", Json.null)] := fun c => rfl
  have ht := truthy_str cid h
  refine ⟨h500 coin_id, hraise coin_id, ?_, ?_, ?_, ?_⟩
  · simp [MultiMCP.call_tool, argGet, lookupField, ht, h500]
    rfl
  · simp [MultiMCP.call_tool, argGet, lookupField, ht, hraise]
    rfl
  · simp [CoinGecko.call_tool, argGet, lookupField, ht, h500]
    rfl
  · simp [CoinGecko.call_tool, argGet, lookupField, ht, hraise]
    rfl

/-- Witness for the amended C1 at coin id "bitcoin", an empty error
body and the fault message "timeout". -/
theorem C1_upstream_and_transport_faults_yield_null_price_witness :
    ("bitcoin" : String) ≠ ""
    ∧ (get_coin_price (Json.str "bitcoin") (HttpOutcome.response 500 (Json.obj []))
        = Json.obj [("price", Json.null)]
      ∧ get_coin_price (Json.str "bitcoin") (HttpOutcome.raise "timeout")
        = Json.obj [("price", Json.null)]
      ∧ MultiMCP.call_tool "get_coin_price" [("coin_id", Json.str "bitcoin")]
          (HttpOutcome.response 500 (Json.obj []))
        = { result := Except.ok [{ type := "text", text := "\x7b\x27price\x27: None\x7d" }],
            upstreamCalls := 1 }
      ∧ MultiMCP.call_tool "get_coin_price" [("coin_id", Json.str "bitcoin")]
          (HttpOutcome.raise "timeout")
        = { result := Except.ok [{ type := "text", text := "\x7b\x27price\x27: None\x7d" }],
            upstreamCalls := 1 }
      ∧ CoinGecko.call_tool "get_coin_price" [("coin_id", Json.str "bitcoin")]
          (HttpOutcome.response 500 (Json.obj []))
        = { result := Except.ok [{ type := "text", text := "\x7b\x27price\x27: None\x7d" }],
            upstreamCalls := 1 }
      ∧ CoinGecko.call_tool "get_coin_price" [("coin_id", Json.str "bitcoin")]
          (HttpOutcome.raise "timeout")
        = { result := Except.ok [{ type := "text", text := "\x7b\x27price\x27: None\x7d" }],
            upstreamCalls := 1 }) :=
  ⟨by decide,
    C1_upstream_and_transport_faults_yield_null_price (Json.str "bitcoin") "bitcoin"
      (by decide) (Json.obj []) "timeout"⟩

/-- Counterexample to C2: for the coin id `""`, even when the 200 body
carries that identifier's `usd` field, `call_tool` raises the
missing-argument `ValueError` (the falsy-value check fires) instead of
yielding a `ToolResult`. -/
theorem C2_counterexample_empty_coin_id :
    priceLookup "" (Json.obj [("", Json.obj [("usd", Json.num 1)])]) = some (Json.num 1)
    ∧ (MultiMCP.call_tool "get_coin_price" [("coin_id", Json.str "")]
          (HttpOutcome.response 200 (Json.obj [("", Json.obj [("usd", Json.num 1)])]))).result
      = Except.error "coin_id is required"
    ∧ (CoinGecko.call_tool "get_coin_price" [("coin_id", Json.str "")]
          (HttpOutcome.response 200 (Json.obj [("", Json.obj [("usd", Json.num 1)])]))).result
      = Except.error "coin_id is required" :=
  ⟨rfl, rfl, rfl⟩

/-- C2 as amended: for every non-empty coin id whose USD value the 200
body carries, the fetcher returns `\x7b"price": usd\x7d` and both
dispatchers yield the text result `str(\x7b"price": usd\x7d)` with exactly
one upstream call. -/
theorem C2_present_coin_price_success (cid : String) (h : cid ≠ "") (body : Json)
    (v : Json) (hv : priceLookup cid body = some v) :
    get_coin_price (Json.str cid) (HttpOutcome.response 200 body) = Json.obj [("price", v)]
    ∧ MultiMCP.call_tool "get_coin_price" [("coin_id", Json.str cid)]
        (HttpOutcome.response 200 body)
      = { result := Except.ok [{ type := "text", text := pyStr (Json.obj [("price", v)]) }],
          upstreamCalls := 1 }
    ∧ CoinGecko.call_tool "get_coin_price" [("coin_id", Json.str cid)]
        (HttpOutcome.response 200 body)
      = { result := Except.ok [{ type := "text", text := pyStr (Json.obj [("price", v)]) }],
          upstreamCalls := 1 } := by
  have hfetch : get_coin_price (Json.str cid) (HttpOutcome.response 200 body)
      = Json.obj [("price", v)] := by
    rw [get_coin_price_200, hv]
    rfl
  have ht := truthy_str cid h
  refine ⟨hfetch, ?_, ?_⟩
  · simp [MultiMCP.call_tool, argGet, lookupField, ht, hfetch]
  · simp [CoinGecko.call_tool, argGet, lookupField, ht, hfetch]

/-- Witness for the amended C2: coin id "bitcoin" quoted at 97000 USD,
whose envelope text is `"\x7b'price': 97000\x7d"`. -/
theorem C2_present_coin_price_success_witness :
    ("bitcoin" : String) ≠ ""
    ∧ priceLookup "bitcoin" (Json.obj [("bitcoin", Json.obj [("usd", Json.num 97000)])])
      = some (Json.num 97000)
    ∧ pyStr (Json.obj [("price", Json.num 97000)]) = "\x7b\x27price\x27: 97000\x7d"
    ∧ (get_coin_price (Json.str "bitcoin")
          (HttpOutcome.response 200 (Json.obj [("bitcoin", Json.obj [("usd", Json.num 97000)])]))
        = Json.obj [("price", Json.num 97000)]
      ∧ MultiMCP.call_tool "get_coin_price" [("coin_id", Json.str "bitcoin")]
          (HttpOutcome.response 200 (Json.obj [("bitcoin", Json.obj [("usd", Json.num 97000)])]))
        = { result := Except.ok [{ type := "text", text := pyStr (Json.obj [("price", Json.num 97000)]) }],
            upstreamCalls := 1 }
      ∧ CoinGecko.call_tool "get_coin_price" [("coin_id", Json.str "bitcoin")]
          (HttpOutcome.response 200 (Json.obj [("bitcoin", Json.obj [("usd", Json.num 97000)])]))
        = { result := Except.ok [{ type := "text", text := pyStr (Json.obj [("price", Json.num 97000)]) }],
            upstreamCalls := 1 }) :=
  ⟨by decide, rfl, rfl,
    C2_present_coin_price_success "bitcoin" (by decide)
      (Json.obj [("bitcoin", Json.obj [("usd", Json.num 97000)])]) (Json.num 97000) rfl⟩

/-- Counterexample to C7: for the keywords list `[]`, against a mock
200 upstream returning `[\x7b"id": 1\x7d]`, `call_tool` raises the
missing-argument `ValueError` (empty lists are falsy) instead of
yielding a `ToolResult`. -/
theorem C7_counterexample_empty_keywords :
    (MultiMCP.call_tool "search_twitter_mentions" [("keywords", Json.arr [])]
        (HttpOutcome.response 200 (Json.arr [Json.obj [("id", Json.num 1)]]))).result
      = Except.error "keywords is required" :=
  rfl

/-- C7 as amended: for every non-empty keywords list, on an HTTP 200
response the mention fetcher returns the upstream body verbatim (order
preserved) and `call_tool` yields its `str()` form as the text result;
in particular the mock body `[\x7b"id": 1\x7d]` surfaces as
`"[\x7b'id': 1\x7d]"`. -/
theorem C7_mentions_returned_verbatim (keywords : List Json) (h : keywords ≠ [])
    (body : Json) :
    search_twitter_mentions (Json.arr keywords) (HttpOutcome.response 200 body) = body
    ∧ MultiMCP.call_tool "search_twitter_mentions" [("keywords", Json.arr keywords)]
        (HttpOutcome.response 200 body)
      = { result := Except.ok [{ type := "text", text := pyStr body }], upstreamCalls := 1 }
    ∧ MultiMCP.call_tool "search_twitter_mentions"
        [("keywords", Json.arr [Json.str "btc", Json.str "eth"])]
        (HttpOutcome.response 200 (Json.arr [Json.obj [("id", Json.num 1)]]))
      = { result := Except.ok [{ type := "text", text := "[\x7b\x27id\x27: 1\x7d]" }],
          upstreamCalls := 1 } := by
  have hm : search_twitter_mentions (Json.arr keywords) (HttpOutcome.response 200 body)
      = body := rfl
  have ht := truthy_arr keywords h
  refine ⟨hm, ?_, rfl⟩
  simp [MultiMCP.call_tool, argGet, lookupField, ht, hm]

/-- Witness for the amended C7: keywords `["btc", "eth"]` against the
one-element mock body `[\x7b"id": 1\x7d]`. -/
theorem C7_mentions_returned_verbatim_witness :
    ([Json.str "btc", Json.str "eth"] : List Json) ≠ []
    ∧ (search_twitter_mentions (Json.arr [Json.str "btc", Json.str "eth"])
          (HttpOutcome.response 200 (Json.arr [Json.obj [("id", Json.num 1)]]))
        = Json.arr [Json.obj [("id", Json.num 1)]]
      ∧ MultiMCP.call_tool "search_twitter_mentions"
          [("keywords", Json.arr [Json.str "btc", Json.str "eth"])]
          (HttpOutcome.response 200 (Json.arr [Json.obj [("id", Json.num 1)]]))
        = { result := Except.ok [{ type := "text", text := pyStr (Json.arr [Json.obj [("id", Json.num 1)]]) }],
            upstreamCalls := 1 }
      ∧ MultiMCP.call_tool "search_twitter_mentions"
          [("keywords", Json.arr [Json.str "btc", Json.str "eth"])]
          (HttpOutcome.response 200 (Json.arr [Json.obj [("id", Json.num 1)]]))
        = { result := Except.ok [{ type := "text", text := "[\x7b\x27id\x27: 1\x7d]" }],
            upstreamCalls := 1 }) :=
  ⟨List.cons_ne_nil _ _,
    C7_mentions_returned_verbatim [Json.str "btc", Json.str "eth"]
      (List.cons_ne_nil _ _) (Json.arr [Json.obj [("id", Json.num 1)]])⟩
